import Mathlib

/-!
Verification of the fingerpain keystroke-telemetry core.

Shallow embedding of the Rust sources:
  crates/fingerpain-listener/src/counter.rs   (KeystrokeCounter)
  crates/fingerpain-listener/src/lib.rs       (KeyEventType, Listener, KeystrokeAggregator)
  crates/fingerpain-daemon/src/main.rs        (KeystrokeTracker)
  crates/fingerpain-core/src/lib.rs           (KeystrokeRecord, TypingSession)
  crates/fingerpain-core/src/session.rs       (SessionTracker, ActiveSession)

Conventions of the embedding:
  * Rust `u32` counters become `Nat` (the claims never exercise wrap-around);
  * `DateTime<Utc>` timestamps become `Int` unix seconds, and chrono
    `Duration` differences become plain integer subtraction, matching the
    second resolution the code actually uses (`timestamp()`, `num_seconds()`);
  * `f64` WPM arithmetic is modelled by exact rationals `ℚ`; the code only
    divides small integer quantities, so the formulas carry over verbatim;
  * `HashMap<String, KeystrokeRecord>` becomes an insertion-ordered
    association list `List (String × KeystrokeRecord)`; `entry(..).or_insert`
    followed by in-place mutation becomes `entryUpdate`;
  * database and platform calls (insert/update/upsert, get_active_app,
    get_browser_context) are external collaborators: their results are
    passed in as parameters and records handed to them are returned as
    explicit outputs.
-/

/-- `KeyEventType` from crates/fingerpain-listener/src/lib.rs. -/
inductive KeyEventType where
  | Character
  | Space
  | Enter
  | Backspace
  | Tab
  | Other
deriving DecidableEq, Repr

/-- `KeyEventType::is_word_boundary` from crates/fingerpain-listener/src/lib.rs:
Space, Enter and Tab are word boundaries. -/
def KeyEventType.is_word_boundary : KeyEventType → Bool
  | .Space | .Enter | .Tab => true
  | _ => false

/-- `KeystrokeCounter` from crates/fingerpain-listener/src/counter.rs. -/
structure KeystrokeCounter where
  pending_chars : Nat
  total_chars : Nat
  total_words : Nat
  total_paragraphs : Nat
  total_backspaces : Nat
deriving DecidableEq, Repr

/-- `KeystrokeCounter::new`: all counters start at zero. -/
def KeystrokeCounter.new : KeystrokeCounter :=
  { pending_chars := 0
    total_chars := 0
    total_words := 0
    total_paragraphs := 0
    total_backspaces := 0 }

/-- `KeystrokeCounter::process` from crates/fingerpain-listener/src/counter.rs. -/
def KeystrokeCounter.process (c : KeystrokeCounter) (event_type : KeyEventType) :
    KeystrokeCounter :=
  match event_type with
  | .Character =>
      { c with pending_chars := c.pending_chars + 1, total_chars := c.total_chars + 1 }
  | .Space | .Tab =>
      if c.pending_chars > 0 then
        { c with total_chars := c.total_chars + 1, total_words := c.total_words + 1,
                 pending_chars := 0 }
      else
        { c with total_chars := c.total_chars + 1 }
  | .Enter =>
      if c.pending_chars > 0 then
        { c with total_chars := c.total_chars + 1, total_paragraphs := c.total_paragraphs + 1,
                 total_words := c.total_words + 1, pending_chars := 0 }
      else
        { c with total_chars := c.total_chars + 1, total_paragraphs := c.total_paragraphs + 1 }
  | .Backspace =>
      if c.pending_chars > 0 then
        { c with total_backspaces := c.total_backspaces + 1,
                 pending_chars := c.pending_chars - 1 }
      else
        { c with total_backspaces := c.total_backspaces + 1 }
  | .Other => c

/-- `KeystrokeCounter::reset` from crates/fingerpain-listener/src/counter.rs. -/
def KeystrokeCounter.reset (_c : KeystrokeCounter) : KeystrokeCounter :=
  KeystrokeCounter.new

/-- Process a whole list of events in order (repeated calls of `process`). -/
def KeystrokeCounter.processList (c : KeystrokeCounter) (es : List KeyEventType) :
    KeystrokeCounter :=
  es.foldl KeystrokeCounter.process c

lemma KeystrokeCounter.processList_append (c : KeystrokeCounter)
    (xs ys : List KeyEventType) :
    c.processList (xs ++ ys) = (c.processList xs).processList ys := by
  simp [KeystrokeCounter.processList, List.foldl_append]

/-- Processing `N` plain characters adds `N` to `pending_chars` and
`total_chars` and touches nothing else. -/
lemma KeystrokeCounter.processList_replicate_char (c : KeystrokeCounter) (N : Nat) :
    c.processList (List.replicate N .Character) =
      { c with pending_chars := c.pending_chars + N, total_chars := c.total_chars + N } := by
  induction N generalizing c with
  | zero => simp [KeystrokeCounter.processList]
  | succ n ih =>
      rw [List.replicate_succ]
      show (c.process .Character).processList (List.replicate n .Character) = _
      rw [ih]
      simp [KeystrokeCounter.process]
      omega

/-- Claim C1: a fresh `KeystrokeCounter` fed `N` Character events and then one
word-boundary event (Space, Tab or Enter) ends with `total_chars = N + 1`; its
`total_words` is exactly `1` when `N ≥ 1` and `0` when `N = 0`. -/
theorem C1_counter_word_semantics (N : Nat) (b : KeyEventType)
    (hb : b.is_word_boundary = true) :
    (KeystrokeCounter.new.processList
        (List.replicate N .Character ++ [b])).total_chars = N + 1 ∧
    (1 ≤ N →
      (KeystrokeCounter.new.processList
          (List.replicate N .Character ++ [b])).total_words = 1) ∧
    (N = 0 →
      (KeystrokeCounter.new.processList
          (List.replicate N .Character ++ [b])).total_words = 0) := by
  rw [KeystrokeCounter.processList_append,
      KeystrokeCounter.processList_replicate_char]
  have hnew : KeystrokeCounter.new.pending_chars = 0 ∧
      KeystrokeCounter.new.total_chars = 0 ∧
      KeystrokeCounter.new.total_words = 0 := by
    simp [KeystrokeCounter.new]
  cases b with
  | Space =>
      rcases Nat.eq_zero_or_pos N with h0 | hpos
      · subst h0
        refine ⟨?_, ?_, ?_⟩ <;>
          simp [KeystrokeCounter.processList, KeystrokeCounter.process,
                KeystrokeCounter.new]
      · refine ⟨?_, fun _ => ?_, fun h => absurd h (Nat.pos_iff_ne_zero.mp hpos)⟩ <;>
          simp [KeystrokeCounter.processList, KeystrokeCounter.process,
                KeystrokeCounter.new, Nat.pos_iff_ne_zero.mp hpos, hpos]
  | Tab =>
      rcases Nat.eq_zero_or_pos N with h0 | hpos
      · subst h0
        refine ⟨?_, ?_, ?_⟩ <;>
          simp [KeystrokeCounter.processList, KeystrokeCounter.process,
                KeystrokeCounter.new]
      · refine ⟨?_, fun _ => ?_, fun h => absurd h (Nat.pos_iff_ne_zero.mp hpos)⟩ <;>
          simp [KeystrokeCounter.processList, KeystrokeCounter.process,
                KeystrokeCounter.new, Nat.pos_iff_ne_zero.mp hpos, hpos]
  | Enter =>
      rcases Nat.eq_zero_or_pos N with h0 | hpos
      · subst h0
        refine ⟨?_, ?_, ?_⟩ <;>
          simp [KeystrokeCounter.processList, KeystrokeCounter.process,
                KeystrokeCounter.new]
      · refine ⟨?_, fun _ => ?_, fun h => absurd h (Nat.pos_iff_ne_zero.mp hpos)⟩ <;>
          simp [KeystrokeCounter.processList, KeystrokeCounter.process,
                KeystrokeCounter.new, Nat.pos_iff_ne_zero.mp hpos, hpos]
  | Character => simp [KeyEventType.is_word_boundary] at hb
  | Backspace => simp [KeyEventType.is_word_boundary] at hb
  | Other => simp [KeyEventType.is_word_boundary] at hb

/-- Witness for C1 at `N = 3`, boundary = Space. -/
theorem C1_counter_word_semantics_witness :
    (KeystrokeCounter.new.processList
        (List.replicate 3 .Character ++ [KeyEventType.Space])).total_chars = 4 ∧
    (KeystrokeCounter.new.processList
        (List.replicate 3 .Character ++ [KeyEventType.Space])).total_words = 1 := by
  have h := C1_counter_word_semantics 3 .Space (by decide)
  exact ⟨h.1, h.2.1 (by decide)⟩

/-- Claim C7: from any counter state, a Backspace event adds one to
`total_backspaces`, takes one off `pending_chars` exactly when it was
positive (so it never goes below zero and stays `0` at `0`), and leaves
`total_chars`, `total_words` and `total_paragraphs` unchanged. -/
theorem C7_backspace_safety (c : KeystrokeCounter) :
    (c.process .Backspace).total_backspaces = c.total_backspaces + 1 ∧
    (0 < c.pending_chars →
      (c.process .Backspace).pending_chars = c.pending_chars - 1) ∧
    (c.pending_chars = 0 → (c.process .Backspace).pending_chars = 0) ∧
    (c.process .Backspace).total_chars = c.total_chars ∧
    (c.process .Backspace).total_words = c.total_words ∧
    (c.process .Backspace).total_paragraphs = c.total_paragraphs := by
  by_cases h : c.pending_chars > 0 <;>
    simp [KeystrokeCounter.process, h] <;> omega

/-- Witness for C7 at the state with `pending_chars = 0` that the claim
singles out. -/
theorem C7_backspace_safety_witness :
    (KeystrokeCounter.new.process .Backspace).total_backspaces = 1 ∧
    (KeystrokeCounter.new.process .Backspace).pending_chars = 0 := by
  have h := C7_backspace_safety KeystrokeCounter.new
  exact ⟨h.1, h.2.2.1 (by decide)⟩

/-- `ActiveApp` from crates/fingerpain-listener/src/platform: the resolved
foreground application (display name and stable bundle identifier). -/
structure ActiveApp where
  name : String
  bundle_id : String
deriving DecidableEq, Repr

/-- `KeystrokeRecord` from crates/fingerpain-core/src/lib.rs: one aggregated
per-minute per-app record. Timestamps are unix seconds. -/
structure KeystrokeRecord where
  id : Option Int
  timestamp : Int
  app_name : Option String
  app_bundle_id : Option String
  char_count : Nat
  word_count : Nat
  paragraph_count : Nat
  backspace_count : Nat
  browser_domain : Option String
  browser_url : Option String
deriving DecidableEq, Repr

/-- `KeystrokeRecord::new`. -/
def KeystrokeRecord.new (timestamp : Int) : KeystrokeRecord :=
  { id := none
    timestamp := timestamp
    app_name := none
    app_bundle_id := none
    char_count := 0
    word_count := 0
    paragraph_count := 0
    backspace_count := 0
    browser_domain := none
    browser_url := none }

/-- Association-list lookup, standing in for `HashMap::get`. -/
def lookupRecord (rs : List (String × KeystrokeRecord)) (k : String) :
    Option KeystrokeRecord :=
  match rs with
  | [] => none
  | (k', r) :: rest => if k' = k then some r else lookupRecord rest k

/-- `HashMap::entry(k).or_insert_with(init)` followed by an in-place update
`f` of the entry: if `k` is present apply `f` to its record, otherwise
append `(k, f init)`. -/
def entryUpdate (rs : List (String × KeystrokeRecord)) (k : String)
    (init : KeystrokeRecord) (f : KeystrokeRecord → KeystrokeRecord) :
    List (String × KeystrokeRecord) :=
  match rs with
  | [] => [(k, f init)]
  | (k', r) :: rest =>
      if k' = k then (k', f r) :: rest else (k', r) :: entryUpdate rest k init f

lemma entryUpdate_ne_nil (rs : List (String × KeystrokeRecord)) (k : String)
    (init : KeystrokeRecord) (f : KeystrokeRecord → KeystrokeRecord) :
    entryUpdate rs k init f ≠ [] := by
  cases rs with
  | nil => simp [entryUpdate]
  | cons hd tl =>
      obtain ⟨k', r⟩ := hd
      by_cases h : k' = k <;> simp [entryUpdate, h]

lemma lookupRecord_entryUpdate (rs : List (String × KeystrokeRecord)) (k : String)
    (init : KeystrokeRecord) (f : KeystrokeRecord → KeystrokeRecord) :
    lookupRecord (entryUpdate rs k init f) k =
      some (f ((lookupRecord rs k).getD init)) := by
  induction rs with
  | nil => simp [entryUpdate, lookupRecord]
  | cons hd tl ih =>
      obtain ⟨k', r⟩ := hd
      by_cases h : k' = k <;> simp [entryUpdate, lookupRecord, h, ih]

/-- `KeyEvent` from crates/fingerpain-listener/src/lib.rs. -/
structure KeyEvent where
  timestamp : Int
  event_type : KeyEventType
  app : Option ActiveApp
deriving DecidableEq, Repr

/-- `KeystrokeAggregator` from crates/fingerpain-listener/src/lib.rs. -/
structure KeystrokeAggregator where
  current_minute : Int
  records : List (String × KeystrokeRecord)
  counter : KeystrokeCounter
deriving Repr

/-- `KeystrokeAggregator::new`. -/
def KeystrokeAggregator.new : KeystrokeAggregator :=
  { current_minute := 0, records := [], counter := KeystrokeCounter.new }

/-- The per-event count update on the current record inside
`KeystrokeAggregator::process` (the `match event.event_type` block). -/
def KeystrokeAggregator.updateCounts (t : KeyEventType) (r : KeystrokeRecord) :
    KeystrokeRecord :=
  match t with
  | .Character | .Space | .Tab => { r with char_count := r.char_count + 1 }
  | .Enter => { r with char_count := r.char_count + 1,
                       paragraph_count := r.paragraph_count + 1 }
  | .Backspace => { r with backspace_count := r.backspace_count + 1 }
  | .Other => r

/-- `KeystrokeAggregator::process` from crates/fingerpain-listener/src/lib.rs.
Returns the new aggregator state together with the completed records (empty
except on minute rollover). `Int.tdiv` is Rust's truncating `i64` division. -/
def KeystrokeAggregator.process (a : KeystrokeAggregator) (e : KeyEvent) :
    KeystrokeAggregator × List KeystrokeRecord :=
  let minute := e.timestamp.tdiv 60
  let rolled := minute ≠ a.current_minute ∧ a.current_minute ≠ 0
  let completed := if rolled then a.records.map Prod.snd else []
  let recs0 := if rolled then [] else a.records
  let ctr0 := if rolled then (a.counter).reset else a.counter
  let ctr := ctr0.process e.event_type
  let app_id := match e.app with
    | some app => app.bundle_id
    | none => "unknown"
  let init :=
    match e.app with
    | some app => { KeystrokeRecord.new e.timestamp with
                      app_name := some app.name, app_bundle_id := some app.bundle_id }
    | none => KeystrokeRecord.new e.timestamp
  let wordUpd : KeystrokeRecord → KeystrokeRecord := fun r =>
    if e.event_type.is_word_boundary ∧ ctr.pending_chars > 0 then
      { r with word_count := r.word_count + 1 }
    else r
  let recs := entryUpdate recs0 app_id init
    (fun r => wordUpd (KeystrokeAggregator.updateCounts e.event_type r))
  ({ current_minute := minute, records := recs, counter := ctr }, completed)

/-- `KeystrokeAggregator::flush`: reset the counter and drain every record. -/
def KeystrokeAggregator.flush (a : KeystrokeAggregator) :
    KeystrokeAggregator × List KeystrokeRecord :=
  ({ current_minute := a.current_minute, records := [],
     counter := (a.counter).reset }, a.records.map Prod.snd)

/-- Run `process` over a list of events, collecting every call's returned
batch in order. -/
def KeystrokeAggregator.processAll (a : KeystrokeAggregator) :
    List KeyEvent → KeystrokeAggregator × List (List KeystrokeRecord)
  | [] => (a, [])
  | e :: es =>
      let step := a.process e
      let rest := step.1.processAll es
      (rest.1, step.2 :: rest.2)

lemma KeystrokeAggregator.process_records_ne_nil (a : KeystrokeAggregator)
    (e : KeyEvent) : (a.process e).1.records ≠ [] := by
  simp only [KeystrokeAggregator.process]
  exact entryUpdate_ne_nil _ _ _ _

lemma KeystrokeAggregator.process_same_minute (a : KeystrokeAggregator)
    (e : KeyEvent) (h : e.timestamp.tdiv 60 = a.current_minute) :
    (a.process e).2 = [] ∧ (a.process e).1.current_minute = a.current_minute := by
  simp [KeystrokeAggregator.process, h]

lemma KeystrokeAggregator.process_rollover (a : KeystrokeAggregator) (e : KeyEvent)
    (h1 : e.timestamp.tdiv 60 ≠ a.current_minute) (h2 : a.current_minute ≠ 0) :
    (a.process e).2 = a.records.map Prod.snd ∧
    (a.process e).1.counter = KeystrokeCounter.new.process e.event_type ∧
    (a.process e).1.current_minute = e.timestamp.tdiv 60 := by
  simp [KeystrokeAggregator.process, h1, h2, KeystrokeCounter.reset]

lemma KeystrokeAggregator.processAll_within_minute (M : Int)
    (es : List KeyEvent) :
    ∀ (a : KeystrokeAggregator), a.current_minute = M →
      (∀ e ∈ es, e.timestamp.tdiv 60 = M) →
      (a.processAll es).2 = List.replicate es.length [] ∧
      (a.processAll es).1.current_minute = M ∧
      (a.records ≠ [] → (a.processAll es).1.records ≠ []) := by
  induction es with
  | nil =>
      intro a ha _
      simp [KeystrokeAggregator.processAll, ha]
  | cons e es ih =>
      intro a ha hes
      have he : e.timestamp.tdiv 60 = M := hes e (by simp)
      have hsm := KeystrokeAggregator.process_same_minute a e (by rw [he, ha])
      have hrec := KeystrokeAggregator.process_records_ne_nil a e
      obtain ⟨h1, h2, h3⟩ := ih (a.process e).1 (by rw [hsm.2, ha])
        (fun x hx => hes x (List.mem_cons_of_mem _ hx))
      refine ⟨?_, h2, fun _ => h3 hrec⟩
      simp [KeystrokeAggregator.processAll, hsm.1, h1, List.replicate_succ]

/-- Claim C3 (amended to minutes `M ≥ 1`): feeding a fresh aggregator one or
more events in minute `M` and then one event in minute `M + 1` makes every
call on the minute-`M` events return the empty batch, while the final call
drains every in-flight record of minute `M` (all applications) as one
non-empty batch, resets the shared pending-word counter for minute `M + 1`,
and moves the current bucket to `M + 1`. The original claim, quantified over
every minute, fails at `M = 0` because the code uses bucket `0` as the
"no bucket established yet" sentinel (see the counterexample). -/
theorem C3_minute_rollover (M : Int) (hM : 1 ≤ M) (e0 : KeyEvent)
    (es : List KeyEvent) (e' : KeyEvent)
    (h0 : e0.timestamp.tdiv 60 = M)
    (hes : ∀ e ∈ es, e.timestamp.tdiv 60 = M)
    (h' : e'.timestamp.tdiv 60 = M + 1) :
    (KeystrokeAggregator.new.processAll (e0 :: es)).2 =
      List.replicate (es.length + 1) [] ∧
    ((KeystrokeAggregator.new.processAll (e0 :: es)).1.process e').2 =
      ((KeystrokeAggregator.new.processAll (e0 :: es)).1.records).map Prod.snd ∧
    ((KeystrokeAggregator.new.processAll (e0 :: es)).1.process e').2 ≠ [] ∧
    ((KeystrokeAggregator.new.processAll (e0 :: es)).1.process e').1.counter =
      KeystrokeCounter.new.process e'.event_type ∧
    ((KeystrokeAggregator.new.processAll (e0 :: es)).1.process e').1.current_minute
      = M + 1 := by
  have hfresh : (KeystrokeAggregator.new.process e0).2 = [] ∧
      (KeystrokeAggregator.new.process e0).1.current_minute = M := by
    constructor <;>
      simp [KeystrokeAggregator.process, KeystrokeAggregator.new, h0]
  have hrec0 := KeystrokeAggregator.process_records_ne_nil KeystrokeAggregator.new e0
  obtain ⟨h1, h2, h3⟩ := KeystrokeAggregator.processAll_within_minute M es
    (KeystrokeAggregator.new.process e0).1 hfresh.2 hes
  have hrun2 : (KeystrokeAggregator.new.processAll (e0 :: es)).2 =
      List.replicate (es.length + 1) [] := by
    simp [KeystrokeAggregator.processAll, hfresh.1, h1, List.replicate_succ]
  have hrun1 : (KeystrokeAggregator.new.processAll (e0 :: es)).1 =
      ((KeystrokeAggregator.new.process e0).1.processAll es).1 := by
    simp [KeystrokeAggregator.processAll]
  have hcur : (KeystrokeAggregator.new.processAll (e0 :: es)).1.current_minute = M := by
    rw [hrun1]; exact h2
  have hrecs : (KeystrokeAggregator.new.processAll (e0 :: es)).1.records ≠ [] := by
    rw [hrun1]; exact h3 hrec0
  have hne : e'.timestamp.tdiv 60 ≠
      (KeystrokeAggregator.new.processAll (e0 :: es)).1.current_minute := by
    rw [hcur, h']; omega
  have hcur0 : (KeystrokeAggregator.new.processAll (e0 :: es)).1.current_minute ≠ 0 := by
    rw [hcur]; omega
  obtain ⟨hr1, hr2, hr3⟩ := KeystrokeAggregator.process_rollover
    (KeystrokeAggregator.new.processAll (e0 :: es)).1 e' hne hcur0
  refine ⟨hrun2, hr1, ?_, hr2, by rw [hr3, h']⟩
  rw [hr1]
  simpa using hrecs

/-- Witness for C3: one Character event at `t = 60` (minute 1), then one at
`t = 120` (minute 2); the first call returns an empty batch and the second a
non-empty one. -/
theorem C3_minute_rollover_witness :
    (KeystrokeAggregator.new.processAll [⟨60, .Character, none⟩]).2 = [[]] ∧
    ((KeystrokeAggregator.new.processAll [⟨60, .Character, none⟩]).1.process
        ⟨120, .Character, none⟩).2 ≠ [] := by
  have h := C3_minute_rollover 1 (by decide) ⟨60, .Character, none⟩ []
    ⟨120, .Character, none⟩ (by decide) (by simp) (by decide)
  exact ⟨h.1, h.2.2.1⟩

/-- Counterexample to C3 as stated: with `M = 0` (one Character event at
`t = 30`, then one at `t = 60`, i.e. minute 0 then minute 1) the rollover
call returns the empty batch — no record of minute 0 is ever drained —
because `current_minute = 0` doubles as the "no bucket yet" sentinel. -/
theorem C3_counterexample :
    ((30 : Int).tdiv 60 = 0 ∧ (60 : Int).tdiv 60 = 0 + 1) ∧
    (KeystrokeAggregator.new.processAll [⟨30, .Character, none⟩]).1.records ≠ [] ∧
    ((KeystrokeAggregator.new.processAll [⟨30, .Character, none⟩]).1.process
        ⟨60, .Character, none⟩).2 = [] := by
  refine ⟨⟨by decide, by decide⟩, by decide, by decide⟩

/-- The subset of `rdev::Key` named by the daemon's match arms
(crates/fingerpain-daemon/src/main.rs); `Unknown` stands for every
other key, all of which fall into the wildcard arm. -/
inductive Key where
  | Space | Return | Backspace | Tab
  | KeyA | KeyB | KeyC | KeyD | KeyE | KeyF | KeyG | KeyH | KeyI | KeyJ
  | KeyK | KeyL | KeyM | KeyN | KeyO | KeyP | KeyQ | KeyR | KeyS | KeyT
  | KeyU | KeyV | KeyW | KeyX | KeyY | KeyZ
  | Num0 | Num1 | Num2 | Num3 | Num4 | Num5 | Num6 | Num7 | Num8 | Num9
  | Comma | Dot | Slash | SemiColon | Quote | LeftBracket | RightBracket
  | BackSlash | Minus | Equal | BackQuote
  | Unknown
deriving DecidableEq, Repr, Fintype

/-- The `(is_char, is_word_boundary, is_backspace, is_enter)` quadruple the
daemon computes per key (crates/fingerpain-daemon/src/main.rs:66-83). -/
structure KeyClass where
  is_char : Bool
  is_word_boundary : Bool
  is_backspace : Bool
  is_enter : Bool
deriving DecidableEq, Repr

/-- The daemon's key-classification match
(crates/fingerpain-daemon/src/main.rs:66-83). -/
def daemonKeyClass : Key → KeyClass
  | .Space => ⟨true, true, false, false⟩
  | .Tab => ⟨true, true, false, false⟩
  | .Return => ⟨true, true, false, true⟩
  | .Backspace => ⟨false, false, true, false⟩
  | .KeyA | .KeyB | .KeyC | .KeyD | .KeyE | .KeyF | .KeyG | .KeyH | .KeyI
  | .KeyJ | .KeyK | .KeyL | .KeyM | .KeyN | .KeyO | .KeyP | .KeyQ | .KeyR
  | .KeyS | .KeyT | .KeyU | .KeyV | .KeyW | .KeyX | .KeyY | .KeyZ =>
      ⟨true, false, false, false⟩
  | .Num0 | .Num1 | .Num2 | .Num3 | .Num4 | .Num5 | .Num6 | .Num7 | .Num8
  | .Num9 => ⟨true, false, false, false⟩
  | .Comma | .Dot | .Slash | .SemiColon | .Quote | .LeftBracket
  | .RightBracket | .BackSlash | .Minus | .Equal | .BackQuote =>
      ⟨true, false, false, false⟩
  | .Unknown => ⟨false, false, false, false⟩

/-- `BrowserContext` from crates/fingerpain-core/src/lib.rs. -/
structure BrowserContext where
  domain : String
  url : String
  title : String
deriving DecidableEq, Repr

/-- `KeystrokeTracker::is_browser` from crates/fingerpain-daemon/src/main.rs. -/
def is_browser (bundle_id : String) : Bool :=
  bundle_id == "com.JadeApps.Helium" || bundle_id == "com.google.Chrome" ||
  bundle_id == "org.mozilla.firefox" || bundle_id == "com.apple.Safari"

/-- `KeystrokeTracker` from crates/fingerpain-daemon/src/main.rs. The
database handle is an external collaborator and is left out; records handed
to `upsert_keystroke` are instead returned by `flush`. -/
structure KeystrokeTracker where
  current_minute : Int
  records : List (String × KeystrokeRecord)
  pending_word_chars : Nat
  last_app_check : Int
  cached_app : Option ActiveApp
deriving Repr

/-- `KeystrokeTracker::new`. -/
def KeystrokeTracker.new : KeystrokeTracker :=
  { current_minute := 0, records := [], pending_word_chars := 0,
    last_app_check := 0, cached_app := none }

/-- `KeystrokeTracker::flush`: drain every record; the ones with
`char_count > 0 || backspace_count > 0` are handed to the database. Note
that, unlike the library aggregator, the daemon's flush does not touch
`pending_word_chars`. -/
def KeystrokeTracker.flush (t : KeystrokeTracker) :
    KeystrokeTracker × List KeystrokeRecord :=
  ({ t with records := [] },
   (t.records.map Prod.snd).filter
     (fun r => r.char_count > 0 || r.backspace_count > 0))

/-- The throttled active-app poll in `process_key`
(crates/fingerpain-daemon/src/main.rs:60-63): refresh the cache when at
least 2 seconds passed since the last check. `resolved` is what
`platform::get_active_app().ok()` returns at this instant. -/
def KeystrokeTracker.appPoll (t : KeystrokeTracker) (now : Int)
    (resolved : Option ActiveApp) : KeystrokeTracker :=
  if now - t.last_app_check ≥ 2 then
    { t with cached_app := resolved, last_app_check := now }
  else t

/-- The `(app_name, bundle_id, browser_domain, browser_url)` quadruple of
`process_key` (crates/fingerpain-daemon/src/main.rs:91-112). -/
structure AppCtx where
  app_name : Option String
  bundle_id : Option String
  browser_domain : Option String
  browser_url : Option String
deriving DecidableEq, Repr

/-- Resolve the app/browser context from the cached app; `bctx` is what
`db.get_browser_context` returns for a browser bundle id. -/
def resolveCtx (cached : Option ActiveApp) (bctx : Option BrowserContext) :
    AppCtx :=
  match cached with
  | some app =>
      if is_browser app.bundle_id then
        match bctx with
        | some c => ⟨some app.name, some app.bundle_id, some c.domain, some c.url⟩
        | none => ⟨some app.name, some app.bundle_id, none, none⟩
      else ⟨some app.name, some app.bundle_id, none, none⟩
  | none => ⟨none, none, none, none⟩

/-- Evolution of the shared `pending_word_chars` inside `process_key`
(crates/fingerpain-daemon/src/main.rs:137-160). -/
def daemonPendingAfter (k : KeyClass) (pending : Nat) : Nat :=
  let p1 := if k.is_char ∧ ¬ k.is_word_boundary = true then pending + 1 else pending
  let p2 := if k.is_backspace ∧ p1 > 0 then p1 - 1 else p1
  if k.is_word_boundary ∧ p2 > 0 then 0 else p2

/-- The in-place record update of `process_key`: browser-field overwrite
(lines 131-135), then count updates (lines 137-160), in source order. -/
def daemonRecordUpdate (k : KeyClass) (ctx : AppCtx) (pending : Nat)
    (r : KeystrokeRecord) : KeystrokeRecord :=
  let r1 := match ctx.browser_domain, ctx.browser_url with
    | some bd, some bu => { r with browser_domain := some bd, browser_url := some bu }
    | _, _ => r
  let r2 := if k.is_char then { r1 with char_count := r1.char_count + 1 } else r1
  let p1 := if k.is_char ∧ ¬ k.is_word_boundary = true then pending + 1 else pending
  let r3 := if k.is_backspace then
      { r2 with backspace_count := r2.backspace_count + 1 } else r2
  let p2 := if k.is_backspace ∧ p1 > 0 then p1 - 1 else p1
  let r4 := if k.is_enter then
      { r3 with paragraph_count := r3.paragraph_count + 1 } else r3
  if k.is_word_boundary ∧ p2 > 0 then
    { r4 with word_count := r4.word_count + 1 }
  else r4

/-- `KeystrokeTracker::process_key` from crates/fingerpain-daemon/src/main.rs.
External inputs: `now` (the wall clock), `resolved` (the platform's active
app at this instant) and `bctx` (the stored browser context). The returned
list is what the rollover flush hands to the database. -/
def KeystrokeTracker.process_key (t : KeystrokeTracker) (now : Int) (key : Key)
    (resolved : Option ActiveApp) (bctx : Option BrowserContext) :
    KeystrokeTracker × List KeystrokeRecord :=
  let minute := now.tdiv 60
  let fl := if minute ≠ t.current_minute ∧ t.current_minute ≠ 0
            then t.flush else (t, [])
  let t1 := { fl.1 with current_minute := minute }
  let t2 := t1.appPoll now resolved
  let k := daemonKeyClass key
  if ¬ k.is_char = true ∧ ¬ k.is_backspace = true then (t2, fl.2)
  else
    let ctx := resolveCtx t2.cached_app bctx
    let app_id := ctx.bundle_id.getD "unknown"
    let init := { KeystrokeRecord.new now with
                    app_name := ctx.app_name, app_bundle_id := ctx.bundle_id,
                    browser_domain := ctx.browser_domain,
                    browser_url := ctx.browser_url }
    let recs := entryUpdate t2.records app_id init
      (daemonRecordUpdate k ctx t2.pending_word_chars)
    ({ t2 with records := recs,
               pending_word_chars := daemonPendingAfter k t2.pending_word_chars },
     fl.2)

/-- Every word-boundary key in the daemon's classification is also a
character key. -/
lemma daemonKeyClass_wb_char (key : Key)
    (h : (daemonKeyClass key).is_word_boundary = true) :
    (daemonKeyClass key).is_char = true := by
  revert h; revert key; decide

/-- No word-boundary key is a backspace in the daemon's classification. -/
lemma daemonKeyClass_wb_not_backspace (key : Key)
    (h : (daemonKeyClass key).is_word_boundary = true) :
    (daemonKeyClass key).is_backspace = false := by
  revert h; revert key; decide

lemma daemonPendingAfter_boundary (k : KeyClass) (p : Nat)
    (hwb : k.is_word_boundary = true) (hbs : k.is_backspace = false)
    (hp : 0 < p) : daemonPendingAfter k p = 0 := by
  simp [daemonPendingAfter, hwb, hbs, hp]

lemma daemonRecordUpdate_word (k : KeyClass) (ctx : AppCtx) (p : Nat)
    (r : KeystrokeRecord) (hwb : k.is_word_boundary = true)
    (hbs : k.is_backspace = false) (hp : 0 < p) :
    (daemonRecordUpdate k ctx p r).word_count = r.word_count + 1 := by
  simp only [daemonRecordUpdate, hwb, hbs]
  rcases hd : ctx.browser_domain with _ | bd <;>
    rcases hu : ctx.browser_url with _ | bu <;>
      by_cases hc : k.is_char = true <;>
        by_cases he : k.is_enter = true <;>
          simp [hc, he, hp]

/-- Claim C2 (amended): in the daemon's `process_key`, a word-boundary key
arriving while the shared `pending_word_chars` is positive (and within the
current minute) increments `word_count` on the record of the *currently
cached* application by exactly 1 and resets the shared pending count to 0.
The pending-word state is one counter shared by all applications — not kept
per application key — so a boundary typed in one application consumes
pending characters typed in another (see the counterexample); and in the
library's `KeystrokeAggregator::process` the per-record `word_count` is
never incremented at all, because the shared counter zeroes `pending_chars`
before the word-completion check reads it. -/
theorem C2_boundary_word_increment (t : KeystrokeTracker) (now : Int)
    (key : Key) (resolved : Option ActiveApp) (bctx : Option BrowserContext)
    (hwb : (daemonKeyClass key).is_word_boundary = true)
    (hpend : 0 < t.pending_word_chars)
    (hmin : now.tdiv 60 = t.current_minute) :
    (t.process_key now key resolved bctx).1.pending_word_chars = 0 ∧
    (lookupRecord (t.process_key now key resolved bctx).1.records
        ((resolveCtx (t.appPoll now resolved).cached_app bctx).bundle_id.getD
          "unknown")).map KeystrokeRecord.word_count =
      some ((Option.map KeystrokeRecord.word_count
        (lookupRecord t.records
          ((resolveCtx (t.appPoll now resolved).cached_app bctx).bundle_id.getD
            "unknown"))).getD 0 + 1) := by
  have hchar := daemonKeyClass_wb_char key hwb
  have hbs := daemonKeyClass_wb_not_backspace key hwb
  have happ : (t.appPoll now resolved).records = t.records := by
    unfold KeystrokeTracker.appPoll
    split <;> rfl
  have hpend2 : (t.appPoll now resolved).pending_word_chars =
      t.pending_word_chars := by
    unfold KeystrokeTracker.appPoll
    split <;> rfl
  have hcond : ¬ (now.tdiv 60 ≠ t.current_minute ∧ t.current_minute ≠ 0) := by
    rw [hmin]; simp
  have hcond2 : ¬ (¬ (daemonKeyClass key).is_char = true ∧
      ¬ (daemonKeyClass key).is_backspace = true) := by
    simp [hchar]
  simp only [KeystrokeTracker.process_key]
  rw [if_neg hcond]
  rw [show ((t, ([] : List KeystrokeRecord))).1 = t from rfl]
  rw [hmin]
  rw [show ({ t with current_minute := t.current_minute } : KeystrokeTracker) = t
      from rfl]
  rw [if_neg hcond2]
  refine ⟨?_, ?_⟩
  · show daemonPendingAfter (daemonKeyClass key)
        (t.appPoll now resolved).pending_word_chars = 0
    rw [hpend2]
    exact daemonPendingAfter_boundary _ _ hwb hbs hpend
  · show (lookupRecord (entryUpdate (t.appPoll now resolved).records
        ((resolveCtx (t.appPoll now resolved).cached_app bctx).bundle_id.getD
          "unknown") _
        (daemonRecordUpdate (daemonKeyClass key)
          (resolveCtx (t.appPoll now resolved).cached_app bctx)
          (t.appPoll now resolved).pending_word_chars))
        ((resolveCtx (t.appPoll now resolved).cached_app bctx).bundle_id.getD
          "unknown")).map
        KeystrokeRecord.word_count = _
    rw [happ, lookupRecord_entryUpdate]
    rw [Option.map_some']
    rw [daemonRecordUpdate_word _ _ _ _ hwb hbs (by rw [hpend2]; exact hpend)]
    rcases hl : lookupRecord t.records
        ((resolveCtx (t.appPoll now resolved).cached_app bctx).bundle_id.getD
          "unknown") with _ | r
    · simp [hl, KeystrokeRecord.new]
    · simp [hl]

/-- Witness for C2 (amended): one Character then one Space in the same app
and minute; the app's record gains one word and the pending count drops
to 0. -/
theorem C2_boundary_word_increment_witness :
    ((KeystrokeTracker.new.process_key 120 .KeyA
        (some ⟨"App A", "com.a"⟩) none).1.process_key 121 .Space
        (some ⟨"App A", "com.a"⟩) none).1.pending_word_chars = 0 ∧
    (lookupRecord ((KeystrokeTracker.new.process_key 120 .KeyA
        (some ⟨"App A", "com.a"⟩) none).1.process_key 121 .Space
        (some ⟨"App A", "com.a"⟩) none).1.records "com.a").map
      KeystrokeRecord.word_count = some 1 := by
  have h := C2_boundary_word_increment
    (KeystrokeTracker.new.process_key 120 .KeyA
      (some ⟨"App A", "com.a"⟩) none).1 121 .Space
    (some ⟨"App A", "com.a"⟩) none (by decide) (by decide) (by decide)
  refine ⟨h.1, ?_⟩
  have h2 := h.2
  rw [show (resolveCtx (((KeystrokeTracker.new.process_key 120 .KeyA
      (some ⟨"App A", "com.a"⟩) none).1.appPoll 121
      (some ⟨"App A", "com.a"⟩)).cached_app) none).bundle_id.getD "unknown"
      = "com.a" from by decide] at h2
  rw [show (Option.map KeystrokeRecord.word_count
      (lookupRecord (KeystrokeTracker.new.process_key 120 .KeyA
        (some ⟨"App A", "com.a"⟩) none).1.records "com.a")).getD 0 = 0
      from by decide] at h2
  exact h2

/-- Counterexample to C2 as stated: the pending-word state is shared, not
per application. A Character typed while "com.a" is the cached app followed
by a Space typed while "com.b" is cached gives app "com.b" a word count of
1 — the boundary in one application consumed the pending character typed in
the other — and zeroes the shared pending count; "com.a" keeps word count 0. -/
theorem C2_counterexample :
    (lookupRecord ((KeystrokeTracker.new.process_key 120 .KeyA
        (some ⟨"App A", "com.a"⟩) none).1.process_key 125 .Space
        (some ⟨"App B", "com.b"⟩) none).1.records "com.b").map
      KeystrokeRecord.word_count = some 1 ∧
    (lookupRecord ((KeystrokeTracker.new.process_key 120 .KeyA
        (some ⟨"App A", "com.a"⟩) none).1.process_key 125 .Space
        (some ⟨"App B", "com.b"⟩) none).1.records "com.a").map
      KeystrokeRecord.word_count = some 0 ∧
    ((KeystrokeTracker.new.process_key 120 .KeyA
        (some ⟨"App A", "com.a"⟩) none).1.process_key 125 .Space
        (some ⟨"App B", "com.b"⟩) none).1.pending_word_chars = 0 := by
  refine ⟨by decide, by decide, by decide⟩

/-- `TypingSession` from crates/fingerpain-core/src/lib.rs. Timestamps are
unix seconds; the `f64` WPM fields are exact rationals in the embedding. -/
structure TypingSession where
  id : Option Int
  start_time : Int
  end_time : Option Int
  char_count : Nat
  word_count : Nat
  wpm_avg : Option ℚ
  wpm_peak : Option ℚ
deriving DecidableEq, Repr

/-- `TypingSession::new`. -/
def TypingSession.new (start_time : Int) : TypingSession :=
  { id := none, start_time := start_time, end_time := none,
    char_count := 0, word_count := 0, wpm_avg := none, wpm_peak := none }

/-- `ActiveSession` from crates/fingerpain-core/src/session.rs. -/
structure ActiveSession where
  session : TypingSession
  last_keystroke : Int
  keystroke_times : List (Int × Nat)
  current_wpm : ℚ
  peak_wpm : ℚ
deriving DecidableEq, Repr

/-- `ActiveSession::calculate_current_wpm`
(crates/fingerpain-core/src/session.rs:180-199). The Rust `first().unwrap()`
and `last().unwrap()` are safe under `len ≥ 2`; `headD`/`getLastD` with a
dummy default mirror them. -/
def ActiveSession.calculate_current_wpm (a : ActiveSession) : ℚ :=
  if a.keystroke_times.length < 2 then 0
  else
    let total_chars : Nat := (a.keystroke_times.map Prod.snd).sum
    let first_time : Int := (a.keystroke_times.headD (0, 0)).1
    let last_time : Int := (a.keystroke_times.getLastD (0, 0)).1
    let duration_secs : ℚ := ((last_time - first_time : Int) : ℚ)
    if duration_secs ≤ 0 then 0
    else ((total_chars : ℚ) / 5) / (duration_secs / 60)

/-- `ActiveSession::calculate_avg_wpm`
(crates/fingerpain-core/src/session.rs:202-215). -/
def ActiveSession.calculate_avg_wpm (a : ActiveSession) : ℚ :=
  let duration_secs : ℚ := ((a.last_keystroke - a.session.start_time : Int) : ℚ)
  if duration_secs ≤ 0 then 0
  else ((a.session.char_count : ℚ) / 5) / (duration_secs / 60)

/-- `SessionTracker` from crates/fingerpain-core/src/session.rs. The
database is an external collaborator: `insert_session` is modelled by the
`next_id` counter (it always succeeds and hands out fresh ids), and the
sessions passed to `update_session` at close are returned as an explicit
`Option TypingSession`. The mutex around `current_session` serialises
access; each public operation below is one full critical section. -/
structure SessionTracker where
  current_session : Option ActiveSession
  idle_timeout : Int
  next_id : Int
deriving Repr

/-- `SessionTracker::new` (database handle omitted): no session, 5-second
idle timeout. -/
def SessionTracker.new : SessionTracker :=
  { current_session := none, idle_timeout := 5, next_id := 1 }

/-- `SessionTracker::with_idle_timeout`. -/
def SessionTracker.with_idle_timeout (t : SessionTracker) (timeout : Int) :
    SessionTracker :=
  { t with idle_timeout := timeout }

/-- `SessionTracker::start_new_session`
(crates/fingerpain-core/src/session.rs:90-110). -/
def SessionTracker.start_new_session (t : SessionTracker) (now : Int)
    (char_count word_count : Nat) : ActiveSession × SessionTracker :=
  let session := { TypingSession.new now with
    char_count := char_count, word_count := word_count, id := some t.next_id }
  ({ session := session, last_keystroke := now,
     keystroke_times := [(now, char_count)],
     current_wpm := 0, peak_wpm := 0 },
   { t with next_id := t.next_id + 1 })

/-- `SessionTracker::record_keystroke`
(crates/fingerpain-core/src/session.rs:39-88). Returns the new tracker state
and, when the keystroke arrived after the idle timeout, the finalized
session handed to `update_session`. -/
def SessionTracker.record_keystroke (t : SessionTracker) (now : Int)
    (char_count word_count : Nat) : SessionTracker × Option TypingSession :=
  match t.current_session with
  | some active =>
      if now - active.last_keystroke > t.idle_timeout then
        let closed := { active.session with
          end_time := some active.last_keystroke,
          wpm_avg := some active.calculate_avg_wpm,
          wpm_peak := some active.peak_wpm }
        let ns := t.start_new_session now char_count word_count
        ({ ns.2 with current_session := some ns.1 }, some closed)
      else
        let ktimes := (active.keystroke_times ++ [(now, char_count)]).filter
          (fun p => p.1 > now - 60)
        let a1 : ActiveSession :=
          { session := { active.session with
              char_count := active.session.char_count + char_count,
              word_count := active.session.word_count + word_count },
            last_keystroke := now,
            keystroke_times := ktimes,
            current_wpm := active.current_wpm,
            peak_wpm := active.peak_wpm }
        let cw := a1.calculate_current_wpm
        let a2 := { a1 with
                    current_wpm := cw,
                    peak_wpm := if cw > active.peak_wpm then cw
                                else active.peak_wpm }
        ({ t with current_session := some a2 }, none)
  | none =>
      let ns := t.start_new_session now char_count word_count
      ({ ns.2 with current_session := some ns.1 }, none)

/-- `SessionTracker::check_idle`
(crates/fingerpain-core/src/session.rs:133-154): on idle timeout, finalize
with `end_time = last_keystroke` and clear the current session. -/
def SessionTracker.check_idle (t : SessionTracker) (now : Int) :
    SessionTracker × Option TypingSession :=
  match t.current_session with
  | some active =>
      if now - active.last_keystroke > t.idle_timeout then
        let closed := { active.session with
          end_time := some active.last_keystroke,
          wpm_avg := some active.calculate_avg_wpm,
          wpm_peak := some active.peak_wpm }
        ({ t with current_session := none }, some closed)
      else (t, none)
  | none => (t, none)

/-- `SessionTracker::end_session`
(crates/fingerpain-core/src/session.rs:157-175): finalize unconditionally
with `end_time = now`. -/
def SessionTracker.end_session (t : SessionTracker) (now : Int) :
    SessionTracker × Option TypingSession :=
  match t.current_session with
  | some active =>
      let closed := { active.session with
        end_time := some now,
        wpm_avg := some active.calculate_avg_wpm,
        wpm_peak := some active.peak_wpm }
      ({ t with current_session := none }, some closed)
  | none => (t, none)

/-- `SessionTracker::current_wpm`
(crates/fingerpain-core/src/session.rs:113-120): a pure read under the lock. -/
def SessionTracker.current_wpm (t : SessionTracker) : ℚ :=
  (t.current_session.map ActiveSession.current_wpm).getD 0

/-- `SessionTracker::peak_wpm`
(crates/fingerpain-core/src/session.rs:123-130): a pure read under the lock. -/
def SessionTracker.peak_wpm (t : SessionTracker) : ℚ :=
  (t.current_session.map ActiveSession.peak_wpm).getD 0

/-- Claim C4: instantaneous WPM is `0` whenever the rolling window has fewer
than 2 entries or its span (positionally last timestamp minus first, the
window being kept in chronological order) is not positive; with at least 2
entries and a positive span it equals
`(sum of window char_counts / 5) / (span in minutes)`. -/
theorem C4_current_wpm_formula (a : ActiveSession) :
    (a.keystroke_times.length < 2 → a.calculate_current_wpm = 0) ∧
    ((a.keystroke_times.getLastD (0, 0)).1 - (a.keystroke_times.headD (0, 0)).1
        ≤ 0 → a.calculate_current_wpm = 0) ∧
    (2 ≤ a.keystroke_times.length →
      0 < (a.keystroke_times.getLastD (0, 0)).1 -
          (a.keystroke_times.headD (0, 0)).1 →
      a.calculate_current_wpm =
        (((a.keystroke_times.map Prod.snd).sum : ℚ) / 5) /
          ((((a.keystroke_times.getLastD (0, 0)).1 -
             (a.keystroke_times.headD (0, 0)).1 : Int) : ℚ) / 60)) := by
  refine ⟨?_, ?_, ?_⟩
  · intro h
    simp only [ActiveSession.calculate_current_wpm]
    rw [if_pos h]
  · intro h
    by_cases hl : a.keystroke_times.length < 2
    · simp only [ActiveSession.calculate_current_wpm]
      rw [if_pos hl]
    · have hc : (((a.keystroke_times.getLastD (0, 0)).1 -
          (a.keystroke_times.headD (0, 0)).1 : Int) : ℚ) ≤ 0 := by
        exact_mod_cast h
      simp only [ActiveSession.calculate_current_wpm]
      rw [if_neg hl, if_pos hc]
  · intro hlen hspan
    have hl : ¬ a.keystroke_times.length < 2 := by omega
    have hc : ¬ ((((a.keystroke_times.getLastD (0, 0)).1 -
        (a.keystroke_times.headD (0, 0)).1 : Int) : ℚ) ≤ 0) := by
      simp only [not_le]
      exact_mod_cast hspan
    simp only [ActiveSession.calculate_current_wpm]
    rw [if_neg hl, if_neg hc]

/-- Witness for C4: the spec's own example — a window of exactly two entries
12 seconds apart totalling 5 characters gives 5 WPM. -/
theorem C4_current_wpm_formula_witness :
    ({ session := TypingSession.new 0, last_keystroke := 12,
       keystroke_times := [(0, 2), (12, 3)], current_wpm := 0, peak_wpm := 0 } :
      ActiveSession).calculate_current_wpm = 5 := by
  have h := (C4_current_wpm_formula
    { session := TypingSession.new 0, last_keystroke := 12,
      keystroke_times := [(0, 2), (12, 3)], current_wpm := 0,
      peak_wpm := 0 }).2.2 (by decide) (by decide)
  rw [h]
  norm_num

/-- Claim C5 (amended): the finalized session-average WPM is 0 whenever
`last_keystroke − start_time ≤ 0`, and otherwise equals
`(char_count / 5) / (duration in minutes)`. The original claim's "equals 0
exactly when the duration is ≤ 0" fails: a session whose `char_count` is 0
has average WPM 0 with a strictly positive duration (see the
counterexample). -/
theorem C5_avg_wpm_formula (a : ActiveSession) :
    (a.last_keystroke - a.session.start_time ≤ 0 →
      a.calculate_avg_wpm = 0) ∧
    (0 < a.last_keystroke - a.session.start_time →
      a.calculate_avg_wpm =
        ((a.session.char_count : ℚ) / 5) /
          (((a.last_keystroke - a.session.start_time : Int) : ℚ) / 60)) := by
  constructor
  · intro h
    have hc : ((a.last_keystroke - a.session.start_time : Int) : ℚ) ≤ 0 := by
      exact_mod_cast h
    simp only [ActiveSession.calculate_avg_wpm]
    rw [if_pos hc]
  · intro h
    have hc : ¬ (((a.last_keystroke - a.session.start_time : Int) : ℚ) ≤ 0) := by
      simp only [not_le]
      exact_mod_cast h
    simp only [ActiveSession.calculate_avg_wpm]
    rw [if_neg hc]

/-- Witness for C5 (amended): 5 characters over 12 seconds average to 5 WPM. -/
theorem C5_avg_wpm_formula_witness :
    ({ session := { TypingSession.new 0 with char_count := 5 },
       last_keystroke := 12, keystroke_times := [], current_wpm := 0,
       peak_wpm := 0 } : ActiveSession).calculate_avg_wpm = 5 := by
  have h := (C5_avg_wpm_formula
    { session := { TypingSession.new 0 with char_count := 5 },
      last_keystroke := 12, keystroke_times := [], current_wpm := 0,
      peak_wpm := 0 }).2 (by decide)
  rw [h]
  norm_num [TypingSession.new]

/-- Counterexample to C5 as stated: a session with `char_count = 0` whose
last keystroke is 60 seconds after its start has a strictly positive
duration, yet its average WPM is 0 — so WPM 0 does not hold *exactly* when
the duration is non-positive. -/
theorem C5_counterexample :
    0 < ({ session := TypingSession.new 0, last_keystroke := 60,
           keystroke_times := [(0, 0)], current_wpm := 0, peak_wpm := 0 } :
          ActiveSession).last_keystroke -
        ({ session := TypingSession.new 0, last_keystroke := 60,
           keystroke_times := [(0, 0)], current_wpm := 0, peak_wpm := 0 } :
          ActiveSession).session.start_time ∧
    ({ session := TypingSession.new 0, last_keystroke := 60,
       keystroke_times := [(0, 0)], current_wpm := 0, peak_wpm := 0 } :
      ActiveSession).calculate_avg_wpm = 0 := by
  refine ⟨by decide, ?_⟩
  norm_num [ActiveSession.calculate_avg_wpm, TypingSession.new]

/-- Claim C6: closing an open session by explicit `end_session` stamps
`end_time = now`, while both idle-triggered closes — `check_idle`, and a
keystroke arriving after the idle timeout inside `record_keystroke` — stamp
`end_time = last_keystroke`. -/
theorem C6_end_time_semantics (t : SessionTracker) (a : ActiveSession)
    (now : Int) (c w : Nat) (h : t.current_session = some a) :
    ((t.end_session now).2).map TypingSession.end_time = some (some now) ∧
    (now - a.last_keystroke > t.idle_timeout →
      ((t.check_idle now).2).map TypingSession.end_time =
        some (some a.last_keystroke) ∧
      ((t.record_keystroke now c w).2).map TypingSession.end_time =
        some (some a.last_keystroke)) := by
  refine ⟨?_, fun hidle => ⟨?_, ?_⟩⟩
  · simp [SessionTracker.end_session, h]
  · simp [SessionTracker.check_idle, h, hidle]
  · simp [SessionTracker.record_keystroke, h, hidle]

/-- Witness for C6 at a concrete tracker with one open session. -/
theorem C6_end_time_semantics_witness :
    ((({ current_session := some
           { session := TypingSession.new 100, last_keystroke := 100,
             keystroke_times := [(100, 1)], current_wpm := 0, peak_wpm := 0 },
         idle_timeout := 5, next_id := 2 } : SessionTracker).end_session
        110).2).map TypingSession.end_time = some (some 110) ∧
    ((({ current_session := some
           { session := TypingSession.new 100, last_keystroke := 100,
             keystroke_times := [(100, 1)], current_wpm := 0, peak_wpm := 0 },
         idle_timeout := 5, next_id := 2 } : SessionTracker).check_idle
        110).2).map TypingSession.end_time = some (some 100) := by
  have h := C6_end_time_semantics
    { current_session := some
        { session := TypingSession.new 100, last_keystroke := 100,
          keystroke_times := [(100, 1)], current_wpm := 0, peak_wpm := 0 },
      idle_timeout := 5, next_id := 2 }
    { session := TypingSession.new 100, last_keystroke := 100,
      keystroke_times := [(100, 1)], current_wpm := 0, peak_wpm := 0 }
    110 1 0 rfl
  exact ⟨h.1, (h.2 (by decide)).1⟩

/-- Claim C8: with a session open and more than `idle_timeout` elapsed since
its last keystroke, `check_idle` closes it with `wpm_avg` and `wpm_peak`
both set and clears the tracker; a subsequent keystroke then opens a
brand-new session whose `start_time` is the keystroke's time, which differs
from the closed session's `start_time`. -/
theorem C8_idle_close_then_new_session (t : SessionTracker) (a : ActiveSession)
    (now now2 : Int) (c w : Nat)
    (h : t.current_session = some a)
    (hstart : a.session.start_time ≤ a.last_keystroke)
    (htmo : 0 ≤ t.idle_timeout)
    (hidle : t.idle_timeout < now - a.last_keystroke)
    (hord : now ≤ now2) :
    ((t.check_idle now).2).map
        (fun s => (s.wpm_avg.isSome, s.wpm_peak.isSome)) = some (true, true) ∧
    (t.check_idle now).1.current_session = none ∧
    (((t.check_idle now).1.record_keystroke now2 c w).1.current_session).map
        (fun a2 => a2.session.start_time) = some now2 ∧
    now2 ≠ a.session.start_time := by
  have hgt : now - a.last_keystroke > t.idle_timeout := hidle
  refine ⟨?_, ?_, ?_, ?_⟩
  · simp [SessionTracker.check_idle, h, hgt]
  · simp [SessionTracker.check_idle, h, hgt]
  · simp [SessionTracker.check_idle, h, hgt, SessionTracker.record_keystroke,
          SessionTracker.start_new_session, TypingSession.new]
  · omega

/-- Witness for C8: session started at 0, last keystroke at 0, timeout 5;
idle check at 6 closes it, and a keystroke at 7 opens a session starting
at 7. -/
theorem C8_idle_close_then_new_session_witness :
    ((({ current_session := some
           { session := TypingSession.new 0, last_keystroke := 0,
             keystroke_times := [(0, 1)], current_wpm := 0, peak_wpm := 0 },
         idle_timeout := 5, next_id := 2 } : SessionTracker).check_idle 6).2).map
        (fun s => (s.wpm_avg.isSome, s.wpm_peak.isSome)) = some (true, true) ∧
    (((({ current_session := some
            { session := TypingSession.new 0, last_keystroke := 0,
              keystroke_times := [(0, 1)], current_wpm := 0, peak_wpm := 0 },
          idle_timeout := 5, next_id := 2 } : SessionTracker).check_idle
        6).1.record_keystroke 7 1 0).1.current_session).map
        (fun a2 => a2.session.start_time) = some 7 ∧
    (7 : Int) ≠ (TypingSession.new 0).start_time := by
  have h := C8_idle_close_then_new_session
    { current_session := some
        { session := TypingSession.new 0, last_keystroke := 0,
          keystroke_times := [(0, 1)], current_wpm := 0, peak_wpm := 0 },
      idle_timeout := 5, next_id := 2 }
    { session := TypingSession.new 0, last_keystroke := 0,
      keystroke_times := [(0, 1)], current_wpm := 0, peak_wpm := 0 }
    6 7 1 0 rfl (by decide) (by decide) (by decide) (by decide)
  exact ⟨h.1, h.2.2.1, h.2.2.2⟩

/-- Claim C10: with no open session, the public accessors `current_wpm` and
`peak_wpm` both return 0; in the embedding they are pure reads of the
tracker state, so they cannot change it. -/
theorem C10_accessors_default_zero (t : SessionTracker)
    (h : t.current_session = none) :
    t.current_wpm = 0 ∧ t.peak_wpm = 0 := by
  simp [SessionTracker.current_wpm, SessionTracker.peak_wpm, h]

/-- Witness for C10 on the freshly constructed tracker. -/
theorem C10_accessors_default_zero_witness :
    SessionTracker.new.current_wpm = 0 ∧ SessionTracker.new.peak_wpm = 0 :=
  C10_accessors_default_zero SessionTracker.new rfl

/-- `ListenerError` from crates/fingerpain-listener/src/lib.rs. -/
inductive ListenerError where
  | StartFailed (msg : String)
  | AlreadyRunning
  | Platform (msg : String)
deriving DecidableEq, Repr

/-- `Listener` from crates/fingerpain-listener/src/lib.rs. The shared
`Arc<Mutex<bool>>` running flag is a plain `Bool` here; `stop_tx` records
whether a stop channel is installed (`Option<Sender<()>>` being Some). -/
structure Listener where
  running : Bool
  stop_tx : Bool
deriving DecidableEq, Repr

/-- `Listener::new`. -/
def Listener.new : Listener :=
  { running := false, stop_tx := false }

/-- `Listener::is_running`. -/
def Listener.is_running (l : Listener) : Bool :=
  l.running

/-- `Listener::start` (crates/fingerpain-listener/src/lib.rs:103-123): if
already running, return `AlreadyRunning` before touching any state;
otherwise install the stop channel, set the running flag and spawn the
capture thread (the spawn is an external side effect outside the state). -/
def Listener.start (l : Listener) : Except ListenerError Unit × Listener :=
  if l.is_running then (Except.error ListenerError.AlreadyRunning, l)
  else (Except.ok (), { running := true, stop_tx := true })

/-- `Listener::stop`: clear the running flag and take the stop channel. -/
def Listener.stop (_l : Listener) : Listener :=
  { running := false, stop_tx := false }

/-- Claim C9: calling `start` on a listener that is already running returns
the `AlreadyRunning` error and leaves the listener state unchanged (no
second capture hook is spawned, since the early return precedes the spawn). -/
theorem C9_double_start_rejected (l : Listener) (h : l.is_running = true) :
    (l.start).1 = Except.error ListenerError.AlreadyRunning ∧
    (l.start).2 = l := by
  constructor <;> simp [Listener.start, h]

/-- Witness for C9: start a fresh listener, then start it again. -/
theorem C9_double_start_rejected_witness :
    ((Listener.new.start).2.start).1 =
      Except.error ListenerError.AlreadyRunning ∧
    ((Listener.new.start).2.start).2 = (Listener.new.start).2 :=
  C9_double_start_rejected (Listener.new.start).2 (by decide)

/-- The library aggregator's word-completion check is dead code: on any
word-boundary event the shared counter has already zeroed `pending_chars`
before the check reads it, so the current record's `word_count` survives
`process` unchanged (here shown from a fresh aggregator after one pending
character, where the boundary should have completed a word). -/
theorem KeystrokeAggregator_word_count_dead_code :
    (lookupRecord ((KeystrokeAggregator.new.process
        ⟨60, .Character, none⟩).1.process ⟨61, .Space, none⟩).1.records
      "unknown").map KeystrokeRecord.word_count = some 0 ∧
    ((KeystrokeAggregator.new.process
        ⟨60, .Character, none⟩).1.process ⟨61, .Space, none⟩).1.counter.total_words
      = 1 := by
  exact ⟨by decide, by decide⟩
